import Mathlib

/-!
Shallow embedding of the traveltranslator services.

`TranslationService` (src/services/elevenLabsService.ts, second module):
pure data flow of `translateText` / `simulateTranslation` / `getLanguageName`
is embedded directly; the outcomes of the two effectful steps (the stored-key
lookup and the network fetch) are passed in as explicit parameters, and the
JavaScript try/catch around `translateText` is embedded as an `Except` value
whose `error` arm is mapped to the catch block.

`ElevenLabsService` (same file, first module): `generateSpeech` with the
in-memory audio cache passed as explicit association-list state and a counter
of network requests issued.

`StorageService.saveTranslation` (src/unnamed/part_002): pure transformation
on the stored history list.

JavaScript string truthiness (`if (!apiKey)`), object-literal key lookup
(insertion order = list order, exact string equality), `String.prototype.includes`,
`toLowerCase` / `toUpperCase` on the ASCII data involved, and `Array.slice(0, 99)`
are modelled by `truthy`, `List.lookup`, `strIncludes`, `String.toLower` /
`String.toUpper` and `List.take 99` respectively.
-/

/-- TranslationRequest from src/types/translation.ts. -/
structure TranslationRequest where
  text : String
  fromLanguage : String
  toLanguage : String
deriving DecidableEq, Repr

/-- TranslationResponse from src/types/translation.ts. -/
structure TranslationResponse where
  translatedText : String
  originalText : String
  fromLanguage : String
  toLanguage : String
deriving DecidableEq, Repr

/-- JavaScript truthiness of a `string | null | undefined` value:
`null`/`undefined` and the empty string are falsy. -/
def truthy : Option String → Bool
  | none => false
  | some s => s ≠ ""

/-- The offline phrase table `translations` of `simulateTranslation`
(src/services/elevenLabsService.ts lines 286-365), in source order. -/
def translations : List (String × List (String × String)) :=
  [("Hello",
    [("es", "Hola"), ("fr", "Bonjour"), ("de", "Hallo"), ("it", "Ciao"),
     ("pt", "Olá"), ("ru", "Привет"), ("ja", "こんにちは"), ("ko", "안녕하세요"),
     ("zh", "你好"), ("ar", "مرحبا"), ("hi", "नमस्ते")]),
   ("Thank you",
    [("es", "Gracias"), ("fr", "Merci"), ("de", "Danke"), ("it", "Grazie"),
     ("pt", "Obrigado"), ("ru", "Спасибо"), ("ja", "ありがとう"), ("ko", "감사합니다"),
     ("zh", "谢谢"), ("ar", "شكرا"), ("hi", "धन्यवाद")]),
   ("Excuse me",
    [("es", "Disculpe"), ("fr", "Excusez-moi"), ("de", "Entschuldigung"), ("it", "Mi scusi"),
     ("pt", "Desculpe"), ("ru", "Извините"), ("ja", "すみません"), ("ko", "실례합니다"),
     ("zh", "对不起"), ("ar", "عذرا"), ("hi", "माफ करें")]),
   ("Where is the bathroom?",
    [("es", "¿Dónde está el baño?"), ("fr", "Où sont les toilettes?"),
     ("de", "Wo ist die Toilette?"), ("it", "Dove è il bagno?"),
     ("pt", "Onde fica o banheiro?"), ("ru", "Где туалет?"),
     ("ja", "トイレはどこですか？"), ("ko", "화장실이 어디에 있나요?"),
     ("zh", "洗手间在哪里？"), ("ar", "أين الحمام؟"), ("hi", "बाथरूम कहाँ है?")]),
   ("How much does this cost?",
    [("es", "¿Cuánto cuesta esto?"), ("fr", "Combien ça coûte?"),
     ("de", "Wie viel kostet das?"), ("it", "Quanto costa questo?"),
     ("pt", "Quanto custa isso?"), ("ru", "Сколько это стоит?"),
     ("ja", "これはいくらですか？"), ("ko", "이것은 얼마입니까?"),
     ("zh", "这个多少钱？"), ("ar", "كم يكلف هذا؟"), ("hi", "इसकी कीमत कितनी है?")]),
   ("I need help",
    [("es", "Necesito ayuda"), ("fr", "J'ai besoin d'aide"), ("de", "Ich brauche Hilfe"),
     ("it", "Ho bisogno di aiuto"), ("pt", "Preciso de ajuda"), ("ru", "Мне нужна помощь"),
     ("ja", "助けが必要です"), ("ko", "도움이 필요합니다"), ("zh", "我需要帮助"),
     ("ar", "أحتاج مساعدة"), ("hi", "मुझे मदद चाहिए")])]

/-- `translations[request.text]?.[request.toLanguage]`: exact two-level lookup. -/
def exactLookup (text lang : String) : Option String :=
  (translations.lookup text).bind (fun langMap => langMap.lookup lang)

/-- Boolean list-level test that `sub` occurs at the start of `s`. -/
def isPrefixB : List Char → List Char → Bool
  | [], _ => true
  | _ :: _, [] => false
  | a :: as, b :: bs => a == b && isPrefixB as bs

/-- Boolean list-level test that `sub` occurs contiguously somewhere in `s`
(the semantics of JavaScript `s.includes(sub)` on the char level). -/
def isSubstrListB (sub : List Char) : List Char → Bool
  | [] => isPrefixB sub []
  | c :: rest => isPrefixB sub (c :: rest) || isSubstrListB sub rest

/-- `s.includes(sub)` for strings. -/
def strIncludes (s sub : String) : Bool :=
  isSubstrListB sub.data s.data

/-- `s.toLowerCase()` (character-wise; agrees with JavaScript on ASCII). -/
def lowerString (s : String) : String :=
  ⟨s.data.map Char.toLower⟩

/-- `s.toUpperCase()` (character-wise; agrees with JavaScript on ASCII). -/
def upperString (s : String) : String :=
  ⟨s.data.map Char.toUpper⟩

/-- The partial-match loop of `simulateTranslation`
(lines 380-392): iterate the table in order; when the lowercased input
contains the lowercased key or vice versa, return the entry for the target
language if it exists and is truthy, else keep scanning. -/
def substringMatch (lowerText lang : String) :
    List (String × List (String × String)) → Option String
  | [] => none
  | (key, langMap) :: rest =>
    if strIncludes lowerText (lowerString key) || strIncludes (lowerString key) lowerText then
      match langMap.lookup lang with
      | some t => if t = "" then substringMatch lowerText lang rest else some t
      | none => substringMatch lowerText lang rest
    else substringMatch lowerText lang rest

/-- The part of `simulateTranslation` after the exact-match check: partial
match, then the `[<TARGET-UPPERCASE>] <text>` placeholder (lines 378-402). -/
def simulateFallback (req : TranslationRequest) : TranslationResponse :=
  match substringMatch (lowerString req.text) req.toLanguage translations with
  | some t => ⟨t, req.text, req.fromLanguage, req.toLanguage⟩
  | none =>
    ⟨"[" ++ upperString req.toLanguage ++ "] " ++ req.text,
     req.text, req.fromLanguage, req.toLanguage⟩

/-- `simulateTranslation` (lines 284-403): exact table hit (with JavaScript
truthiness on the looked-up string), else the fallback chain. -/
def simulateTranslation (req : TranslationRequest) : TranslationResponse :=
  match exactLookup req.text req.toLanguage with
  | some t =>
    if t = "" then simulateFallback req
    else ⟨t, req.text, req.fromLanguage, req.toLanguage⟩
  | none => simulateFallback req

/-- Outcome of `storageService.getOpenAIKey()` as observed by `translateText`:
either a resolved value (`string | null`) or a rejected promise. -/
inductive LookupOutcome where
  | ok (stored : Option String)
  | thrown
deriving DecidableEq, Repr

/-- The observable content of an OpenAI chat-completion HTTP response:
`ok` is `response.ok`; `choicesContent` is `data.choices[0].message.content`
when the payload is well-formed, `none` when it is malformed. -/
structure ChatResponse where
  ok : Bool
  choicesContent : Option String
deriving DecidableEq, Repr

/-- Outcome of the `fetch` of `translateText`: a response, or a thrown error. -/
inductive FetchOutcome where
  | response (r : ChatResponse)
  | thrown
deriving DecidableEq, Repr

/-- Credential resolution of `translateText` (lines 184-187): environment key
if truthy, else the stored key; a rejected storage promise becomes a thrown
error inside the try block. -/
def resolveApiKey (envKey : Option String) (lk : LookupOutcome) :
    Except String (Option String) :=
  if truthy envKey then .ok envKey
  else
    match lk with
    | .ok stored => .ok stored
    | .thrown => .error "storage failure"

/-- The body of the `try` block of `translateText` (lines 182-242): any JS
`throw` is an `Except.error`. Note the simulation path is a normal return. -/
def tryTranslate (envKey : Option String) (lk : LookupOutcome)
    (fetch : FetchOutcome) (req : TranslationRequest) :
    Except String TranslationResponse :=
  match resolveApiKey envKey lk with
  | .error e => .error e
  | .ok apiKey =>
    if truthy apiKey then
      match fetch with
      | .thrown => .error "network failure"
      | .response r =>
        if r.ok then
          match r.choicesContent with
          | some c => .ok ⟨c.trim, req.text, req.fromLanguage, req.toLanguage⟩
          | none => .error "Invalid response from OpenAI API"
        else .error "OpenAI API error"
    else .ok (simulateTranslation req)

/-- The catch block of `translateText` (lines 243-254): the simulated result
with a "[Demo] " marker prepended to its translated text. -/
def demoResponse (req : TranslationRequest) : TranslationResponse :=
  let s := simulateTranslation req
  { s with translatedText := "[Demo] " ++ s.translatedText }

/-- `translateText` (lines 181-255): the try body, with every thrown error
mapped to the catch block's demo fallback. It always resolves to `.ok`. -/
def translateText (envKey : Option String) (lk : LookupOutcome)
    (fetch : FetchOutcome) (req : TranslationRequest) :
    Except String TranslationResponse :=
  match tryTranslate envKey lk fetch req with
  | .ok r => .ok r
  | .error _ => .ok (demoResponse req)

/-- The `languageNames` table of `getLanguageName` (lines 258-279). -/
def languageNames : List (String × String) :=
  [("en", "English"), ("es", "Spanish"), ("fr", "French"), ("de", "German"),
   ("it", "Italian"), ("pt", "Portuguese"), ("ru", "Russian"), ("ja", "Japanese"),
   ("ko", "Korean"), ("zh", "Chinese"), ("ar", "Arabic"), ("hi", "Hindi"),
   ("th", "Thai"), ("vi", "Vietnamese"), ("tr", "Turkish"), ("pl", "Polish"),
   ("nl", "Dutch"), ("sv", "Swedish"), ("da", "Danish"), ("no", "Norwegian")]

/-- `getLanguageName` (lines 257-282). -/
def getLanguageName (code : String) : String :=
  (languageNames.lookup code).getD code

/-- TTSRequest (src/services/elevenLabsService.ts lines 31-35). -/
structure TTSRequest where
  text : String
  language : String
  voiceId : Option String
deriving DecidableEq, Repr

/-- TTSResponse (lines 37-41); `error` models the optional `error` field. -/
structure TTSResponse where
  audioUri : String
  success : Bool
  error : Option String
deriving DecidableEq, Repr

/-- `VOICE_MAP` (lines 8-29), in source order. -/
def VOICE_MAP : List (String × String) :=
  [("en", "pNInz6obpgDQGcFmaJgB"), ("es", "VR6AewLTigWG4xSOukaG"),
   ("fr", "TxGEqnHWrfWFTfGW9XjX"), ("de", "pqHfZKP75CvOlQylNhV4"),
   ("it", "XB0fDUnXU5powFXDhCwa"), ("pt", "IKne3meq5aSn9XLyUdCD"),
   ("ru", "onwK4e9ZLuTAKqWW03F9"), ("ja", "bVMeCyTHy58xNoL34h3p"),
   ("ko", "AZnzlk1XvdvUeBnXmlld"), ("zh", "pFZP5JQG7iQjIQuC4Bku"),
   ("ar", "N2lVS1w4EtoT3dr4eOWO"), ("hi", "TX3LPaxmHKxFdv7VOQHJ"),
   ("th", "pNInz6obpgDQGcFmaJgB"), ("vi", "pNInz6obpgDQGcFmaJgB"),
   ("tr", "pNInz6obpgDQGcFmaJgB"), ("pl", "pNInz6obpgDQGcFmaJgB"),
   ("nl", "pNInz6obpgDQGcFmaJgB"), ("sv", "pNInz6obpgDQGcFmaJgB"),
   ("da", "pNInz6obpgDQGcFmaJgB"), ("no", "pNInz6obpgDQGcFmaJgB")]

/-- JavaScript `a || b` on `string | undefined` values: `a` when truthy,
else `b`. -/
def jsOr (a b : Option String) : Option String :=
  match a with
  | some s => if s = "" then b else some s
  | none => b

/-- Voice selection of `generateSpeech` (line 75):
`request.voiceId || VOICE_MAP[request.language] || VOICE_MAP['en']`. -/
def selectVoice (voiceOverride : Option String) (language : String) : Option String :=
  jsOr (jsOr voiceOverride (VOICE_MAP.lookup language)) (VOICE_MAP.lookup "en")

/-- `const cacheKey = `${request.text}_${request.language}`` (line 67). -/
def cacheKey (text language : String) : String :=
  text ++ "_" ++ language

/-- Outcome of the speech network path as observed by `generateSpeech`:
a converted data URI on success, a non-2xx HTTP status, or a thrown error
(network failure or `FileReader` failure). -/
inductive AudioFetch where
  | ok (dataUri : String)
  | httpError (status : Nat)
  | thrown
deriving DecidableEq, Repr

/-- The observable outcome of one `generateSpeech` call: its returned
response, the audio cache afterwards, and how many network requests the
call issued (0 or 1). -/
structure SpeechResult where
  resp : TTSResponse
  cache : List (String × String)
  networkCalls : Nat
deriving DecidableEq, Repr

/-- `generateSpeech` (lines 56-126), with the credential, the cache contents
(`audioCache`, newest binding first) and the network outcome explicit. The
non-2xx branch throws `ElevenLabs API error: <status>` which the catch block
returns as the error message; other thrown values surface as
`Unknown error`. -/
def generateSpeech (apiKey : Option String) (fetch : AudioFetch)
    (cache : List (String × String)) (req : TTSRequest) : SpeechResult :=
  if truthy apiKey then
    match cache.lookup (cacheKey req.text req.language) with
    | some uri => ⟨⟨uri, true, none⟩, cache, 0⟩
    | none =>
      match fetch with
      | .ok uri => ⟨⟨uri, true, none⟩, (cacheKey req.text req.language, uri) :: cache, 1⟩
      | .httpError status =>
        ⟨⟨"", false, some ("ElevenLabs API error: " ++ toString status)⟩, cache, 1⟩
      | .thrown => ⟨⟨"", false, some "Unknown error"⟩, cache, 1⟩
  else ⟨⟨"", false, some "ElevenLabs API key not configured"⟩, cache, 0⟩

/-- `isConfigured` of `ElevenLabsService` (lines 158-160):
`!!ELEVENLABS_API_KEY`. -/
def isConfigured (apiKey : Option String) : Bool :=
  truthy apiKey

/-- Translation record from src/types/translation.ts. -/
structure Translation where
  id : String
  originalText : String
  translatedText : String
  originalLanguage : String
  targetLanguage : String
  timestamp : Nat
  isAudio : Bool
  audioUri : Option String
deriving DecidableEq, Repr

/-- `StorageService.saveTranslation` (src/unnamed/part_002 lines 27-35) as the
transformation of the stored history list:
`[translation, ...existing.slice(0, 99)]`. -/
def saveTranslation (existing : List Translation) (t : Translation) :
    List Translation :=
  t :: existing.take 99

/-- The stored history after appending a sequence of records (oldest first)
one `saveTranslation` call at a time, starting from a given stored list. -/
def appendAll (rs : List Translation) : List Translation :=
  rs.foldl saveTranslation []

/-- A concrete history record used to instantiate universally quantified
statements. -/
def sampleTranslation : Translation :=
  ⟨"1", "Hello", "Hola", "en", "es", 0, false, none⟩


/-- A successful association-list lookup returns a value paired with some key
of the list. -/
lemma lookup_mem_pair {α β : Type} [BEq α] {l : List (α × β)} {a : α} {b : β}
    (h : l.lookup a = some b) : ∃ k, (k, b) ∈ l := by
  induction l with
  | nil => simp [List.lookup] at h
  | cons hd tl ih =>
    obtain ⟨k, v⟩ := hd
    cases hk : a == k with
    | true =>
      rw [List.lookup, hk] at h
      simp at h
      exact ⟨k, by simp [h]⟩
    | false =>
      rw [List.lookup, hk] at h
      obtain ⟨k', hk'⟩ := ih h
      exact ⟨k', List.mem_cons_of_mem _ hk'⟩

/-- Every value stored in the offline phrase table is a non-empty string. -/
lemma exactLookup_ne_empty {text lang t : String}
    (h : exactLookup text lang = some t) : t ≠ "" := by
  unfold exactLookup at h
  cases hm : translations.lookup text with
  | none => rw [hm] at h; simp at h
  | some langMap =>
    rw [hm] at h
    simp only [Option.some_bind] at h
    obtain ⟨k1, hk1⟩ := lookup_mem_pair hm
    obtain ⟨k2, hk2⟩ := lookup_mem_pair h
    have hall : translations.all (fun p => p.2.all (fun q => q.2 != "")) = true := by decide
    have h1 := List.all_eq_true.mp hall _ hk1
    have h2 := List.all_eq_true.mp h1 _ hk2
    simpa using h2

/-- `simulateTranslation` echoes the request's text and language fields. -/
lemma simulateTranslation_fields (req : TranslationRequest) :
    (simulateTranslation req).originalText = req.text ∧
    (simulateTranslation req).fromLanguage = req.fromLanguage ∧
    (simulateTranslation req).toLanguage = req.toLanguage := by
  unfold simulateTranslation simulateFallback
  refine ⟨?_, ?_, ?_⟩ <;> (repeat' split) <;> rfl

/-- With no truthy credential anywhere, the try body returns the offline
simulation unchanged. -/
lemma tryTranslate_no_credential
    (env stored : Option String) (fetch : FetchOutcome) (req : TranslationRequest)
    (henv : truthy env = false) (hst : truthy stored = false) :
    tryTranslate env (.ok stored) fetch req = .ok (simulateTranslation req) := by
  simp [tryTranslate, resolveApiKey, henv, hst]

/-- C1: for every translation request whose text is present verbatim as a key
in the offline phrase table with an entry for the target language, `translateText`
with no environment credential and no stored user credential returns exactly the
table value as `translatedText`, with no "[Demo]" marker; in particular
`text="Hello"`, `targetLanguage="es"` yields `"Hola"`. -/
theorem translate_offline_exact_hit
    (env stored : Option String) (fetch : FetchOutcome) (req : TranslationRequest)
    (t : String)
    (henv : truthy env = false) (hst : truthy stored = false)
    (hex : exactLookup req.text req.toLanguage = some t) :
    translateText env (.ok stored) fetch req =
      .ok ⟨t, req.text, req.fromLanguage, req.toLanguage⟩ ∧
    translateText none (.ok none) fetch ⟨"Hello", "en", "es"⟩ =
      .ok ⟨"Hola", "Hello", "en", "es"⟩ := by
  have hne : t ≠ "" := exactLookup_ne_empty hex
  constructor
  · have h1 := tryTranslate_no_credential env stored fetch req henv hst
    have h2 : simulateTranslation req = ⟨t, req.text, req.fromLanguage, req.toLanguage⟩ := by
      unfold simulateTranslation
      rw [hex]
      simp [hne]
    simp [translateText, h1, h2]
  · rfl

/-- Witness for C1: `"Hello"→fr` gives `"Bonjour"` with an empty environment
credential and no stored credential. -/
theorem translate_offline_exact_hit_witness :
    translateText (some "") (.ok none) .thrown ⟨"Hello", "en", "fr"⟩ =
      .ok ⟨"Bonjour", "Hello", "en", "fr"⟩ ∧
    translateText none (.ok none) .thrown ⟨"Hello", "en", "es"⟩ =
      .ok ⟨"Hola", "Hello", "en", "es"⟩ :=
  translate_offline_exact_hit (some "") none .thrown ⟨"Hello", "en", "fr"⟩ "Bonjour"
    rfl rfl rfl

/-- C2 counterexample: `"hello"` is absent from the phrase table (keys are
case-sensitive), yet `translateText` without credentials returns `"Hola"` via
the case-insensitive partial match, not the `"[ES] hello"` placeholder the
claim requires. -/
theorem translate_absent_text_counterexample :
    translations.lookup "hello" = none ∧
    translateText none (.ok none) .thrown ⟨"hello", "en", "es"⟩ =
      .ok ⟨"Hola", "hello", "en", "es"⟩ ∧
    ("Hola" : String) ≠ "[ES] hello" :=
  ⟨rfl, rfl, by decide⟩

/-- C2 amended: for every translation request whose text is absent from the
offline phrase table AND for which the case-insensitive substring scan over the
table also produces no entry for the target language, `translateText` with no
environment credential and no stored user credential returns
`"[" + toLanguage.toUpperCase() + "] " + text`. -/
theorem translate_placeholder_when_no_match
    (env stored : Option String) (fetch : FetchOutcome) (req : TranslationRequest)
    (henv : truthy env = false) (hst : truthy stored = false)
    (hex : exactLookup req.text req.toLanguage = none)
    (hsub : substringMatch (lowerString req.text) req.toLanguage translations = none) :
    translateText env (.ok stored) fetch req =
      .ok ⟨"[" ++ upperString req.toLanguage ++ "] " ++ req.text,
           req.text, req.fromLanguage, req.toLanguage⟩ := by
  have h1 := tryTranslate_no_credential env stored fetch req henv hst
  have h2 : simulateTranslation req =
      ⟨"[" ++ upperString req.toLanguage ++ "] " ++ req.text,
       req.text, req.fromLanguage, req.toLanguage⟩ := by
    unfold simulateTranslation
    rw [hex]
    unfold simulateFallback
    rw [hsub]
  simp [translateText, h1, h2]

/-- Witness for the amended C2 at the spec's own example:
`"Bonjour mon ami"` → zh gives `"[ZH] Bonjour mon ami"`. -/
theorem translate_placeholder_when_no_match_witness :
    translateText none (.ok none) .thrown ⟨"Bonjour mon ami", "en", "zh"⟩ =
      .ok ⟨"[" ++ upperString "zh" ++ "] " ++ "Bonjour mon ami",
           "Bonjour mon ami", "en", "zh"⟩ :=
  translate_placeholder_when_no_match none none .thrown ⟨"Bonjour mon ami", "en", "zh"⟩
    rfl rfl rfl rfl

/-- The network path of `translateText` failed: the fetch threw, the response
had a non-success status, or its payload was malformed. -/
def fetchFails : FetchOutcome → Bool
  | .thrown => true
  | .response r => !r.ok || r.choicesContent.isNone

/-- C3: with a truthy credential (environment or stored) and a failing network
path, `translateText` returns exactly the offline simulation for the same
request with `"[Demo] "` prepended to its translated text. -/
theorem translate_demo_on_network_failure
    (env stored : Option String) (fetch : FetchOutcome) (req : TranslationRequest)
    (hkey : truthy env = true ∨ (truthy env = false ∧ truthy stored = true))
    (hf : fetchFails fetch = true) :
    translateText env (.ok stored) fetch req =
      .ok { simulateTranslation req with
              translatedText := "[Demo] " ++ (simulateTranslation req).translatedText } := by
  have hkey' : ∃ k, resolveApiKey env (.ok stored) = .ok k ∧ truthy k = true := by
    rcases hkey with h | ⟨h1, h2⟩
    · exact ⟨env, by simp [resolveApiKey, h], h⟩
    · exact ⟨stored, by simp [resolveApiKey, h1], h2⟩
  obtain ⟨k, hres, hk⟩ := hkey'
  have htry : ∃ e, tryTranslate env (.ok stored) fetch req = .error e := by
    cases fetch with
    | thrown => exact ⟨"network failure", by simp [tryTranslate, hres, hk]⟩
    | response r =>
      cases hok : r.ok with
      | false => exact ⟨"OpenAI API error", by simp [tryTranslate, hres, hk, hok]⟩
      | true =>
        have hc : r.choicesContent = none := by
          simp [fetchFails, hok] at hf
          exact hf
        exact ⟨"Invalid response from OpenAI API",
          by simp [tryTranslate, hres, hk, hok, hc]⟩
  obtain ⟨e, htry⟩ := htry
  simp [translateText, htry, demoResponse]

/-- Witness for C3: a configured key and a non-2xx response on `"Hello"→es`
give `"[Demo] Hola"`. -/
theorem translate_demo_on_network_failure_witness :
    translateText (some "sk-test") (.ok none) (.response ⟨false, none⟩)
      ⟨"Hello", "en", "es"⟩ =
      .ok { simulateTranslation ⟨"Hello", "en", "es"⟩ with
              translatedText :=
                "[Demo] " ++ (simulateTranslation ⟨"Hello", "en", "es"⟩).translatedText } :=
  translate_demo_on_network_failure (some "sk-test") none (.response ⟨false, none⟩)
    ⟨"Hello", "en", "es"⟩ (Or.inl (by decide)) rfl

/-- C4: for every credential configuration, storage-lookup outcome, network
outcome and request — including thrown errors on the lookup and the fetch —
`translateText` resolves with a `TranslationResponse` and never propagates an
error to the caller. -/
theorem translateText_total (env : Option String) (lk : LookupOutcome)
    (fetch : FetchOutcome) (req : TranslationRequest) :
    ∃ r, translateText env lk fetch req = .ok r := by
  unfold translateText
  cases tryTranslate env lk fetch req with
  | ok r => exact ⟨r, rfl⟩
  | error e => exact ⟨demoResponse req, rfl⟩

/-- C10: on every execution path, the response returned by `translateText`
carries the request's own text, source language and target language. -/
theorem translateText_preserves_request (env : Option String) (lk : LookupOutcome)
    (fetch : FetchOutcome) (req : TranslationRequest) (r : TranslationResponse)
    (h : translateText env lk fetch req = .ok r) :
    r.originalText = req.text ∧ r.fromLanguage = req.fromLanguage ∧
      r.toLanguage = req.toLanguage := by
  obtain ⟨hs1, hs2, hs3⟩ := simulateTranslation_fields req
  unfold translateText at h
  cases htry : tryTranslate env lk fetch req with
  | error e =>
    rw [htry] at h
    simp only [Except.ok.injEq] at h
    subst h
    simpa [demoResponse] using ⟨hs1, hs2, hs3⟩
  | ok r' =>
    rw [htry] at h
    simp only [Except.ok.injEq] at h
    subst h
    unfold tryTranslate at htry
    repeat' split at htry
    all_goals
      first
        | (injection htry with h'; subst h'; exact ⟨rfl, rfl, rfl⟩)
        | (injection htry with h'; subst h'; exact ⟨hs1, hs2, hs3⟩)
        | injection htry

/-- Witness for C10 at the no-credential `"Hello"→es` path. -/
theorem translateText_preserves_request_witness :
    (⟨"Hola", "Hello", "en", "es"⟩ : TranslationResponse).originalText = "Hello" ∧
    (⟨"Hola", "Hello", "en", "es"⟩ : TranslationResponse).fromLanguage = "en" ∧
    (⟨"Hola", "Hello", "en", "es"⟩ : TranslationResponse).toLanguage = "es" :=
  translateText_preserves_request none (.ok none) .thrown ⟨"Hello", "en", "es"⟩
    ⟨"Hola", "Hello", "en", "es"⟩ rfl

/-- Folding `saveTranslation` over a batch of records is prepend-all-then-cap:
the result is the reversed batch on top of the old list, truncated to 100. -/
lemma foldl_saveTranslation (rs : List Translation) :
    ∀ acc : List Translation, acc.length ≤ 100 →
      rs.foldl saveTranslation acc = (rs.reverse ++ acc).take 100 := by
  induction rs with
  | nil =>
    intro acc h
    simp [List.take_of_length_le h]
  | cons t rs ih =>
    intro acc h
    rw [List.foldl_cons,
        ih (saveTranslation acc t)
          (by simp only [saveTranslation, List.length_cons, List.length_take]; omega)]
    rw [List.reverse_cons, List.append_assoc, List.singleton_append]
    rw [List.take_append_eq_append_take, List.take_append_eq_append_take]
    congr 1
    unfold saveTranslation
    rcases Nat.eq_zero_or_pos (100 - rs.reverse.length) with h0 | h0
    · have h0' : 100 - rs.length = 0 := by simpa using h0
      simp [h0']
    · obtain ⟨m, hm⟩ : ∃ m, 100 - rs.reverse.length = m + 1 :=
        ⟨100 - rs.reverse.length - 1, by omega⟩
      rw [hm, List.take_cons, List.take_cons, List.take_take]
      have hmin : (m + 1 - 1) ⊓ 99 = m + 1 - 1 := by omega
      rw [hmin]
      all_goals omega

/-- Appending any batch of records one at a time to an empty store leaves the
most recent 100, newest first. -/
lemma appendAll_eq (rs : List Translation) :
    appendAll rs = rs.reverse.take 100 := by
  have h := foldl_saveTranslation rs [] (by simp)
  simpa [appendAll] using h

/-- C5: `saveTranslation` prepends the new record and caps the stored list at
100 entries; appending 101 records to an empty store leaves exactly the 100
most recent records, newest first. -/
theorem saveTranslation_cap :
    (∀ (existing : List Translation) (t : Translation),
        (saveTranslation existing t).length ≤ 100 ∧
        (saveTranslation existing t).head? = some t) ∧
    (∀ rs : List Translation, rs.length = 101 →
        appendAll rs = rs.reverse.take 100 ∧ (appendAll rs).length = 100) := by
  constructor
  · intro existing t
    refine ⟨?_, rfl⟩
    simp only [saveTranslation, List.length_cons, List.length_take]
    omega
  · intro rs h
    refine ⟨appendAll_eq rs, ?_⟩
    rw [appendAll_eq rs]
    simp only [List.length_take, List.length_reverse, h]
    omega

/-- Witness for C5: 101 identical appends to an empty store leave exactly
100 records. -/
theorem saveTranslation_cap_witness :
    appendAll (List.replicate 101 sampleTranslation) =
      (List.replicate 101 sampleTranslation).reverse.take 100 ∧
    (appendAll (List.replicate 101 sampleTranslation)).length = 100 :=
  saveTranslation_cap.2 (List.replicate 101 sampleTranslation) (by simp)

/-- C6 counterexample: with a configured credential and an empty cache, a first
call whose network request fails (HTTP 500) caches nothing, so a second
identical call issues a second network request — two in total, not at most
one. -/
theorem generateSpeech_two_network_calls :
    (generateSpeech (some "key") (.httpError 500) [] ⟨"Hello", "en", none⟩).networkCalls +
      (generateSpeech (some "key") (.httpError 500)
        (generateSpeech (some "key") (.httpError 500) [] ⟨"Hello", "en", none⟩).cache
        ⟨"Hello", "en", none⟩).networkCalls = 2 ∧
    ¬ ((generateSpeech (some "key") (.httpError 500) [] ⟨"Hello", "en", none⟩).networkCalls +
        (generateSpeech (some "key") (.httpError 500)
          (generateSpeech (some "key") (.httpError 500) [] ⟨"Hello", "en", none⟩).cache
          ⟨"Hello", "en", none⟩).networkCalls ≤ 1) :=
  ⟨rfl, by decide⟩

/-- C6 amended: when the first of two identical `generateSpeech` calls
succeeds (by cache hit or by a successful network request), the two calls
issue at most one network request in total and the second call succeeds with
the same `audioUri` as the first. -/
theorem generateSpeech_second_call_cached
    (apiKey : Option String) (f1 f2 : AudioFetch) (c0 : List (String × String))
    (req : TTSRequest)
    (h : (generateSpeech apiKey f1 c0 req).resp.success = true) :
    (generateSpeech apiKey f1 c0 req).networkCalls +
      (generateSpeech apiKey f2 (generateSpeech apiKey f1 c0 req).cache req).networkCalls ≤ 1 ∧
    (generateSpeech apiKey f2 (generateSpeech apiKey f1 c0 req).cache req).resp.success = true ∧
    (generateSpeech apiKey f2 (generateSpeech apiKey f1 c0 req).cache req).resp.audioUri =
      (generateSpeech apiKey f1 c0 req).resp.audioUri := by
  by_cases hk : truthy apiKey = true
  · cases hc : c0.lookup (cacheKey req.text req.language) with
    | some uri => simp [generateSpeech, hk, hc]
    | none =>
      cases f1 with
      | ok uri =>
        have hl : ((cacheKey req.text req.language, uri) :: c0).lookup
            (cacheKey req.text req.language) = some uri := List.lookup_cons_self
        simp [generateSpeech, hk, hc, hl]
      | httpError status => simp [generateSpeech, hk, hc] at h
      | thrown => simp [generateSpeech, hk, hc] at h
  · rw [Bool.not_eq_true] at hk
    simp [generateSpeech, hk] at h

/-- Witness for the amended C6: a successful first call, then a second call
whose (never-issued) network outcome would have failed. -/
theorem generateSpeech_second_call_cached_witness :
    (generateSpeech (some "key") (.ok "data:audio/mpeg;base64,AAA") []
        ⟨"Hello", "en", none⟩).networkCalls +
      (generateSpeech (some "key") .thrown
        (generateSpeech (some "key") (.ok "data:audio/mpeg;base64,AAA") []
          ⟨"Hello", "en", none⟩).cache ⟨"Hello", "en", none⟩).networkCalls ≤ 1 ∧
    (generateSpeech (some "key") .thrown
      (generateSpeech (some "key") (.ok "data:audio/mpeg;base64,AAA") []
        ⟨"Hello", "en", none⟩).cache ⟨"Hello", "en", none⟩).resp.success = true ∧
    (generateSpeech (some "key") .thrown
      (generateSpeech (some "key") (.ok "data:audio/mpeg;base64,AAA") []
        ⟨"Hello", "en", none⟩).cache ⟨"Hello", "en", none⟩).resp.audioUri =
      (generateSpeech (some "key") (.ok "data:audio/mpeg;base64,AAA") []
        ⟨"Hello", "en", none⟩).resp.audioUri :=
  generateSpeech_second_call_cached (some "key") (.ok "data:audio/mpeg;base64,AAA")
    .thrown [] ⟨"Hello", "en", none⟩ rfl

/-- C7: with no truthy speech credential, `generateSpeech` returns a failure
carrying a descriptive error reason, leaves the cache untouched and issues no
network request; and `isConfigured` is false exactly for an absent or empty
credential. -/
theorem generateSpeech_unconfigured
    (apiKey : Option String) (fetch : AudioFetch)
    (cache : List (String × String)) (req : TTSRequest)
    (h : truthy apiKey = false) :
    generateSpeech apiKey fetch cache req =
      ⟨⟨"", false, some "ElevenLabs API key not configured"⟩, cache, 0⟩ ∧
    (∀ k : Option String, isConfigured k = false ↔ (k = none ∨ k = some "")) := by
  constructor
  · simp [generateSpeech, h]
  · intro k
    cases k with
    | none => simp [isConfigured, truthy]
    | some s => simp [isConfigured, truthy]

/-- Witness for C7: no credential at all. -/
theorem generateSpeech_unconfigured_witness :
    generateSpeech none .thrown [] ⟨"Hi", "en", none⟩ =
      ⟨⟨"", false, some "ElevenLabs API key not configured"⟩, [], 0⟩ ∧
    (∀ k : Option String, isConfigured k = false ↔ (k = none ∨ k = some "")) :=
  generateSpeech_unconfigured none .thrown [] ⟨"Hi", "en", none⟩ rfl

/-- C8 counterexample: the cache key is the bare concatenation
`text + "_" + language`, so the distinct argument pairs `("a_b", "c")` and
`("a", "b_c")` collide on the key `"a_b_c"`. -/
theorem cacheKey_collision :
    cacheKey "a_b" "c" = cacheKey "a" "b_c" ∧
    (("a_b", "c") : String × String) ≠ ("a", "b_c") :=
  ⟨rfl, by decide⟩

/-- Splitting a list at an underscore is unambiguous when the parts before the
underscore are underscore-free. -/
lemma append_underscore_inj {as bs xs ys : List Char}
    (ha : '_' ∉ as) (hb : '_' ∉ bs)
    (h : as ++ '_' :: xs = bs ++ '_' :: ys) : as = bs ∧ xs = ys := by
  induction as generalizing bs with
  | nil =>
    cases bs with
    | nil =>
      simp only [List.nil_append, List.cons.injEq] at h
      exact ⟨rfl, h.2⟩
    | cons b bs' =>
      simp only [List.nil_append, List.cons_append, List.cons.injEq] at h
      exact absurd (h.1 ▸ List.mem_cons_self b bs') hb
  | cons a as' ih =>
    cases bs with
    | nil =>
      simp only [List.nil_append, List.cons_append, List.cons.injEq] at h
      exact absurd (h.1 ▸ List.mem_cons_self a as') ha
    | cons b bs' =>
      simp only [List.cons_append, List.cons.injEq] at h
      have ha' : '_' ∉ as' := fun hx => ha (List.mem_cons_of_mem _ hx)
      have hb' : '_' ∉ bs' := fun hx => hb (List.mem_cons_of_mem _ hx)
      obtain ⟨h1, h2⟩ := ih ha' hb' h.2
      exact ⟨by rw [h.1, h1], h2⟩

/-- C8 amended: the key construction `text + "_" + language` is injective on
pairs whose language component contains no underscore (true of every code in
the static catalog); with underscores allowed in both components it collides,
as `cacheKey_collision` shows. -/
theorem cacheKey_injective_underscore_free_language
    (t1 l1 t2 l2 : String)
    (h1 : '_' ∉ l1.data) (h2 : '_' ∉ l2.data)
    (hne : (t1, l1) ≠ (t2, l2)) :
    cacheKey t1 l1 ≠ cacheKey t2 l2 := by
  intro he
  apply hne
  have hd : l1.data.reverse ++ '_' :: t1.data.reverse =
      l2.data.reverse ++ '_' :: t2.data.reverse := by
    have h0 := congrArg (fun s => s.data.reverse) he
    simpa [cacheKey, String.data_append, List.reverse_append] using h0
  have h1' : '_' ∉ l1.data.reverse := by simpa using h1
  have h2' : '_' ∉ l2.data.reverse := by simpa using h2
  obtain ⟨hl, ht⟩ := append_underscore_inj h1' h2' hd
  rw [List.reverse_inj] at hl ht
  have hls : l1 = l2 := String.ext hl
  have hts : t1 = t2 := String.ext ht
  rw [hls, hts]

/-- Witness for the amended C8: the keys of `("Hello", "es")` and
`("Hello", "fr")` differ. -/
theorem cacheKey_injective_underscore_free_language_witness :
    cacheKey "Hello" "es" ≠ cacheKey "Hello" "fr" :=
  cacheKey_injective_underscore_free_language "Hello" "es" "Hello" "fr"
    (by decide) (by decide) (by decide)

/-- C9: every language code of the static 20-entry language-name catalog
resolves through the voice selection rule (per-language `VOICE_MAP` entry,
else the default English voice) to a non-empty voice identifier. -/
theorem voice_catalog_complete :
    ((languageNames.map Prod.fst).all
      (fun code => (selectVoice none code).getD "" != "")) = true := by decide
